import Mathlib

/-!
Shallow embedding of the Permix compliance-gated trading core, translated
from the repository source, together with theorems settling the frozen
claims about its natural-language specification.

Sections:
* Eligibility Evaluator — from `backend/domains-management.js` and
  `backend/permissionedDomains.js` (`isEligibleForTier`, identical in both).
* Order Book Reconstructor — from the `PermissionedDEX` component
  (`parseOrderBook`, `handlePlaceOrder`).
* Issuer flag builder — from `src/services/iou-creator.ts` (`setAccountFlags`).
* DEX order builder — from `src/services/permissioned-dex.ts` (`createDEXOrder`).
* Verification Session Controller — from the PermiX verifier client
  (`pollVerification`, `renderResult`) and `VerificationFlow.tsx`.
-/

/-! ## Eligibility Evaluator

Translated from `backend/domains-management.js` lines 138-150 (the copy in
`backend/permissionedDomains.js` is textually identical):

```js
const isEligibleForTier = (userCredentials, tierCriteria) => {
  for (const userCred of userCredentials) {
    for (const criteria of tierCriteria) {
      if (userCred.Issuer === criteria.Issuer &&
          userCred.CredentialType === criteria.CredentialType &&
          (userCred.Flags & 0x00010000) !== 0) { // Check if accepted
        return true;
      }
    }
  }
  return false;
};
```
-/

/-- A credential ledger object as consumed by `isEligibleForTier`.  The
ledger object carries an optional `Expiration` field (seconds since epoch);
the evaluator itself never reads it. -/
structure LedgerCredential where
  Issuer : String
  CredentialType : String
  Flags : Nat
  Expiration : Option Nat
deriving DecidableEq, Repr

/-- One entry of a domain's accepted-credential policy set. -/
structure CredCriteria where
  Issuer : String
  CredentialType : String
deriving DecidableEq, Repr

/-- The `lsfAccepted` bit tested by `(userCred.Flags & 0x00010000) !== 0`. -/
def lsfAccepted : Nat := 0x00010000

/-- The body of the inner-loop condition of `isEligibleForTier`. -/
def credMatches (userCred : LedgerCredential) (criteria : CredCriteria) : Bool :=
  userCred.Issuer == criteria.Issuer &&
  userCred.CredentialType == criteria.CredentialType &&
  (userCred.Flags &&& lsfAccepted) != 0

/-- `isEligibleForTier(userCredentials, tierCriteria)`: the double loop with
early `return true` is exactly an existential over both lists. -/
def isEligibleForTier (userCredentials : List LedgerCredential)
    (tierCriteria : List CredCriteria) : Bool :=
  userCredentials.any fun userCred =>
    tierCriteria.any fun criteria => credMatches userCred criteria

/-- Whether a credential is accepted, as the code tests it. -/
def credAccepted (c : LedgerCredential) : Bool :=
  (c.Flags &&& lsfAccepted) != 0

/-- Whether a credential is expired at time `now` (spec reading: usable when
`expiration` is unset or in the future). -/
def credExpired (now : Nat) (c : LedgerCredential) : Bool :=
  match c.Expiration with
  | none => false
  | some e => e ≤ now

/-- Modelled from the spec (section 4.2 / testable property): single-credential
eligibility as the spec words it, `accepted && not expired && (issuer,type) ∈
policy`.  Stated for comparison against `isEligibleForTier`. -/
def specEligibleSingle (now : Nat) (c : LedgerCredential)
    (policy : List CredCriteria) : Bool :=
  credAccepted c && !credExpired now c &&
    policy.any fun t => c.Issuer == t.Issuer && c.CredentialType == t.CredentialType

/-! ### Claims C2, C3, C10 -/

/-- C2 counterexample: an accepted credential whose expiration (5) lies in the
past (now = 10) and whose `(issuer, type)` pair is in the policy is reported
eligible by the code, while the claimed spec-side predicate rejects it: the
evaluator never consults `Expiration`, so the claimed equivalence fails. -/
theorem C2_counterexample :
    isEligibleForTier
      [{ Issuer := "rIsabel", CredentialType := "4B5943", Flags := 0x00010000,
         Expiration := some 5 }]
      [{ Issuer := "rIsabel", CredentialType := "4B5943" }] = true
    ∧ specEligibleSingle 10
      { Issuer := "rIsabel", CredentialType := "4B5943", Flags := 0x00010000,
        Expiration := some 5 }
      [{ Issuer := "rIsabel", CredentialType := "4B5943" }] = false := by
  decide

/-- C2 (amended): for every single credential `c` and policy, the evaluator on
`[c]` returns true iff `c` is accepted and its `(issuer, type)` pair appears in
the policy.  Expiration is not consulted, so an accepted expired credential is
still eligible. -/
theorem C2_eligibility_single_iff (c : LedgerCredential) (policy : List CredCriteria) :
    isEligibleForTier [c] policy =
      (credAccepted c &&
        policy.any fun t => c.Issuer == t.Issuer && c.CredentialType == t.CredentialType) := by
  simp only [isEligibleForTier, List.any_cons, List.any_nil, Bool.or_false,
    credMatches, credAccepted]
  induction policy with
  | nil => simp
  | cons t ts ih =>
    simp only [List.any_cons, ih]
    cases hI : c.Issuer == t.Issuer <;>
      cases hT : c.CredentialType == t.CredentialType <;>
        cases hA : (c.Flags &&& lsfAccepted) != 0 <;> simp [hI, hT, hA]

/-- C3 counterexample: with an empty accepted-credential policy set the
evaluator returns `false` — even for a holder of an accepted credential — so
an empty policy does not mean "always eligible". -/
theorem C3_counterexample :
    isEligibleForTier
      [{ Issuer := "rIsabel", CredentialType := "4B5943", Flags := 0x00010000,
         Expiration := none }]
      [] = false := by
  decide

/-- C3 (amended): for every list of held credentials, the evaluator returns
`false` on an empty policy set: an empty accepted-credential set means never
eligible through this evaluator, not "open to all". -/
theorem C3_empty_policy_never_eligible (userCredentials : List LedgerCredential) :
    isEligibleForTier userCredentials [] = false := by
  simp [isEligibleForTier]

/-- C10: the evaluator is monotone in both arguments: growing the held
credential list (sublist) or the policy set (subset) can only turn `false`
into `true`, never revoke an eligibility that already held. -/
theorem C10_isEligibleForTier_monotone
    (A B : List LedgerCredential) (P Q : List CredCriteria)
    (hAB : A.Sublist B) (hPQ : ∀ t ∈ P, t ∈ Q)
    (h : isEligibleForTier A P = true) :
    isEligibleForTier B Q = true := by
  simp only [isEligibleForTier, List.any_eq_true] at h ⊢
  obtain ⟨c, hcA, t, htP, hmatch⟩ := h
  exact ⟨c, hAB.mem hcA, t, hPQ t htP, hmatch⟩

/-- C10 witness: a concrete instantiation — one accepted KYC credential grows
into a two-credential list, a one-entry policy grows into a two-entry policy,
and eligibility is preserved. -/
theorem C10_witness :
    isEligibleForTier
      [{ Issuer := "rIsabel", CredentialType := "4B5943", Flags := 0x00010000,
         Expiration := none },
       { Issuer := "rReg", CredentialType := "414D4C", Flags := 0,
         Expiration := none }]
      [{ Issuer := "rIsabel", CredentialType := "4B5943" },
       { Issuer := "rReg", CredentialType := "414D4C" }] = true :=
  C10_isEligibleForTier_monotone
    [{ Issuer := "rIsabel", CredentialType := "4B5943", Flags := 0x00010000,
       Expiration := none }]
    [{ Issuer := "rIsabel", CredentialType := "4B5943", Flags := 0x00010000,
       Expiration := none },
     { Issuer := "rReg", CredentialType := "414D4C", Flags := 0,
       Expiration := none }]
    [{ Issuer := "rIsabel", CredentialType := "4B5943" }]
    [{ Issuer := "rIsabel", CredentialType := "4B5943" },
     { Issuer := "rReg", CredentialType := "414D4C" }]
    (by decide) (by decide) (by decide)

/-! ## Order Book Reconstructor

Translated from the `PermissionedDEX` component (`parseOrderBook`,
lines 79-160 of the source file).  The component fixes the trading pair to
`DDD/CCC` (base `DDD`, quote `CCC`).  An offer with `TakerGets` in `CCC` and
`TakerPays` in `DDD` is pushed on `asks` with
`price = parseFloat(getsValue) / parseFloat(paysValue)` stored via
`price.toFixed(6)`, `amount = paysValue`, `total = getsValue`; the `DDD`/`CCC`
orientation is pushed on `bids` with the reciprocal quotient; anything else is
logged as "Other pair" and pushed nowhere.  Asks are then sorted ascending and
bids descending by `parseFloat` of the stored price.  Numeric strings are
modelled as the exact rationals `parseFloat` would produce, and the
IEEE special values `Infinity`/`-Infinity`/`NaN` arising from division by zero
are modelled by the `JsNum` type. -/

/-- The result of a JavaScript floating-point computation: a finite value
(idealised as an exact rational) or one of the special values. -/
inductive JsNum where
  | fin (q : ℚ)
  | inf
  | negInf
  | nan
deriving DecidableEq, Repr

/-- JavaScript division `a / b` on (idealised) numbers: division by zero yields
`Infinity`, `-Infinity` or `NaN` instead of an error. -/
def jsDiv (a b : ℚ) : JsNum :=
  if b = 0 then
    if a = 0 then .nan else if 0 < a then .inf else .negInf
  else .fin (a / b)

/-- `Number.prototype.toFixed(6)` on a finite value: round to six decimal
places, choosing the larger candidate on ties (ECMA-262). -/
def toFixed6 (q : ℚ) : ℚ :=
  ((Int.floor (q * 1000000 + 1 / 2) : ℤ) : ℚ) / 1000000

/-- `toFixed(6)` followed by `parseFloat` on a `JsNum`: special values render
as "Infinity"/"-Infinity"/"NaN" and parse back to themselves. -/
def JsNum.fixed6 : JsNum → JsNum
  | .fin q => .fin (toFixed6 q)
  | x => x

/-- Comparison underlying the JS sort comparators
`parseFloat(a.price) - parseFloat(b.price)`; `NaN` comparisons are treated as
ties.  Only used as the sort relation — the claims depend on it solely through
the fact that sorting permutes the list. -/
def jsLeb : JsNum → JsNum → Bool
  | .nan, _ => true
  | _, .nan => true
  | .negInf, _ => true
  | _, .negInf => false
  | .inf, .inf => true
  | _, .inf => true
  | .inf, _ => false
  | .fin a, .fin b => decide (a ≤ b)

/-- A raw ledger `Amount`: native XRP is a bare scalar string, an issued token
is an object with a `currency` and a `value`.  The numeric strings are carried
as the rationals they parse to. -/
inductive RawAmount where
  | xrp (value : ℚ)
  | iou (currency : String) (value : ℚ)
deriving DecidableEq, Repr

/-- `typeof takerGets === 'string' ? 'XRP' : takerGets.currency`. -/
def RawAmount.currency : RawAmount → String
  | .xrp _ => "XRP"
  | .iou c _ => c

/-- `typeof takerGets === 'string' ? takerGets : takerGets.value`. -/
def RawAmount.value : RawAmount → ℚ
  | .xrp v => v
  | .iou _ v => v

/-- A raw offer record as consumed by `parseOrderBook`. -/
structure RawOffer where
  TakerGets : RawAmount
  TakerPays : RawAmount
  Account : String
  Sequence : Nat
deriving DecidableEq, Repr

/-- One row of the reconstructed book, as pushed by `parseOrderBook`. -/
structure BookEntry where
  price : JsNum
  amount : ℚ
  total : ℚ
  Account : String
  Sequence : Nat
deriving DecidableEq, Repr

/-- The ask orientation test: `getsCurrency === 'CCC' && paysCurrency === 'DDD'`
(a sell of the base asset `DDD` priced in the quote `CCC`). -/
def isAskOffer (o : RawOffer) : Bool :=
  o.TakerGets.currency == "CCC" && o.TakerPays.currency == "DDD"

/-- The bid orientation test: `getsCurrency === 'DDD' && paysCurrency === 'CCC'`. -/
def isBidOffer (o : RawOffer) : Bool :=
  o.TakerGets.currency == "DDD" && o.TakerPays.currency == "CCC"

/-- The entry pushed on `asks`: `price = getsValue / paysValue` (then
`toFixed(6)`), `amount = dddAmount = paysValue`, `total = cccAmount = getsValue`. -/
def askEntry (o : RawOffer) : BookEntry :=
  { price := (jsDiv o.TakerGets.value o.TakerPays.value).fixed6
    amount := o.TakerPays.value
    total := o.TakerGets.value
    Account := o.Account
    Sequence := o.Sequence }

/-- The entry pushed on `bids`: `price = paysValue / getsValue` (then
`toFixed(6)`), `amount = dddAmount = getsValue`, `total = cccAmount = paysValue`. -/
def bidEntry (o : RawOffer) : BookEntry :=
  { price := (jsDiv o.TakerPays.value o.TakerGets.value).fixed6
    amount := o.TakerGets.value
    total := o.TakerPays.value
    Account := o.Account
    Sequence := o.Sequence }

/-- Sort relation for asks: ascending by price. -/
def askLE (a b : BookEntry) : Prop := jsLeb a.price b.price = true

instance : DecidableRel askLE := fun a b => by unfold askLE; infer_instance

/-- Sort relation for bids: descending by price. -/
def bidGE (a b : BookEntry) : Prop := jsLeb b.price a.price = true

instance : DecidableRel bidGE := fun a b => by unfold bidGE; infer_instance

/-- The two-sided book returned by `parseOrderBook`. -/
structure OrderBook where
  asks : List BookEntry
  bids : List BookEntry
deriving DecidableEq, Repr

/-- `parseOrderBook`: classify each offer by its currency orientation, push the
priced entry on the matching side (offers matching neither orientation are
dropped), then sort asks ascending and bids descending by price. -/
def parseOrderBook (offers : List RawOffer) : OrderBook :=
  { asks := ((offers.filter isAskOffer).map askEntry).insertionSort askLE
    bids := ((offers.filter isBidOffer).map bidEntry).insertionSort bidGE }

/-- Helper: pushed ask entries survive the final sort (sorting permutes). -/
theorem askEntry_mem_parseOrderBook {offers : List RawOffer} {o : RawOffer}
    (ho : o ∈ offers) (hask : isAskOffer o = true) :
    askEntry o ∈ (parseOrderBook offers).asks := by
  simp only [parseOrderBook, List.mem_insertionSort, List.mem_map]
  exact ⟨o, List.mem_filter.mpr ⟨ho, hask⟩, rfl⟩

/-- Helper: a single ask-oriented offer produces a one-entry ask side. -/
theorem parseOrderBook_single_ask {o : RawOffer}
    (hask : isAskOffer o = true) (hbid : isBidOffer o = false) :
    parseOrderBook [o] = { asks := [askEntry o], bids := [] } := by
  simp [parseOrderBook, List.filter_cons, hask, hbid, List.insertionSort]

/-- Helper: rounding to six decimal places fixes whole numbers. -/
theorem toFixed6_ofNat (n : ℕ) : toFixed6 (n : ℚ) = n := by
  unfold toFixed6
  have : Int.floor ((n : ℚ) * 1000000 + 1 / 2) = n * 1000000 := by
    rw [Int.floor_eq_iff]
    push_cast
    constructor
    · linarith
    · linarith
  rw [this]
  push_cast
  field_simp

/-! ### Claims C4, C5 -/

/-- C4 counterexample: for the ask offer `{takerGets: 10 CCC, takerPays: 3
DDD}` the stored price is `toFixed(6)` of the quotient, `3.333333`, not the
exact quotient `10/3` the claim states, so "price = value(takerGets) /
value(takerPays)" fails as an exact equality on the classified book. -/
theorem C4_counterexample :
    parseOrderBook [{ TakerGets := .iou "CCC" 10, TakerPays := .iou "DDD" 3,
                      Account := "rA", Sequence := 7 }] =
      { asks := [{ price := .fin (3333333 / 1000000), amount := 3, total := 10,
                   Account := "rA", Sequence := 7 }], bids := [] }
    ∧ (3333333 / 1000000 : ℚ) ≠ 10 / 3 := by
  constructor
  · rw [parseOrderBook_single_ask (by decide) (by decide)]
    have hfloor : Int.floor ((10 : ℚ) / 3 * 1000000 + 1 / 2) = 3333333 := by
      rw [Int.floor_eq_iff]
      norm_num
    simp only [askEntry, RawAmount.value, jsDiv, JsNum.fixed6, toFixed6]
    norm_num [hfloor]
  · norm_num

/-- C4 (amended): every offer whose `takerGets` currency is the pair's quote
`CCC` and whose `takerPays` currency is the pair's base `DDD` is placed on the
asks side with price `value(takerGets) / value(takerPays)` rounded to six
decimal places (`toFixed(6)`) and amount `value(takerPays)`; the single offer
`{takerGets: 10 CCC, takerPays: 5 DDD}` yields exactly one ask with price
`2.0` and amount `5`; and every book entry originates from an offer matching
one of the two orientations, so offers matching neither appear in neither
side. -/
theorem C4_ask_classification :
    (∀ offers : List RawOffer, ∀ o ∈ offers, isAskOffer o = true →
      ({ price := (jsDiv o.TakerGets.value o.TakerPays.value).fixed6,
         amount := o.TakerPays.value, total := o.TakerGets.value,
         Account := o.Account, Sequence := o.Sequence } : BookEntry)
        ∈ (parseOrderBook offers).asks)
    ∧ parseOrderBook [{ TakerGets := .iou "CCC" 10, TakerPays := .iou "DDD" 5,
                        Account := "rS", Sequence := 3 }] =
        { asks := [{ price := .fin 2, amount := 5, total := 10,
                     Account := "rS", Sequence := 3 }], bids := [] }
    ∧ (∀ offers : List RawOffer, ∀ e ∈ (parseOrderBook offers).asks,
        ∃ o ∈ offers, isAskOffer o = true ∧ e = askEntry o)
    ∧ (∀ offers : List RawOffer, ∀ e ∈ (parseOrderBook offers).bids,
        ∃ o ∈ offers, isBidOffer o = true ∧ e = bidEntry o) := by
  refine ⟨?_, ?_, ?_, ?_⟩
  · intro offers o ho hask
    exact askEntry_mem_parseOrderBook ho hask
  · rw [parseOrderBook_single_ask (by decide) (by decide)]
    have h2 : ((10 : ℚ) / 5) = 2 := by norm_num
    have h5 : toFixed6 (2 : ℚ) = 2 := by
      simpa using toFixed6_ofNat 2
    simp [askEntry, RawAmount.value, jsDiv, JsNum.fixed6, h2, h5]
  · intro offers e he
    simp only [parseOrderBook, List.mem_insertionSort, List.mem_map] at he
    obtain ⟨o, hf, rfl⟩ := he
    obtain ⟨ho, hask⟩ := List.mem_filter.mp hf
    exact ⟨o, ho, hask, rfl⟩
  · intro offers e he
    simp only [parseOrderBook, List.mem_insertionSort, List.mem_map] at he
    obtain ⟨o, hf, rfl⟩ := he
    obtain ⟨ho, hbid⟩ := List.mem_filter.mp hf
    exact ⟨o, ho, hbid, rfl⟩

/-- C4 witness: the universal ask-placement part applied at the concrete
`{takerGets: 10 CCC, takerPays: 5 DDD}` offer. -/
theorem C4_witness :
    ({ price := (jsDiv (10 : ℚ) 5).fixed6, amount := 5, total := 10,
       Account := "rS", Sequence := 3 } : BookEntry)
      ∈ (parseOrderBook [{ TakerGets := .iou "CCC" 10, TakerPays := .iou "DDD" 5,
                           Account := "rS", Sequence := 3 }]).asks :=
  C4_ask_classification.1
    [{ TakerGets := .iou "CCC" 10, TakerPays := .iou "DDD" 5,
       Account := "rS", Sequence := 3 }]
    { TakerGets := .iou "CCC" 10, TakerPays := .iou "DDD" 5,
      Account := "rS", Sequence := 3 }
    (List.mem_singleton.mpr rfl) rfl

/-- C5 counterexample: the offer `{takerGets: 10 CCC, takerPays: 0 DDD}` has a
zero base-side quantity, yet `parseOrderBook` does not exclude it: the entry
is pushed on asks with price `Infinity` (there is no `MalformedOfferError`
handling anywhere in the function), so the returned book carries an `Infinity`
price. -/
theorem C5_counterexample :
    parseOrderBook [{ TakerGets := .iou "CCC" 10, TakerPays := .iou "DDD" 0,
                      Account := "rZ", Sequence := 9 }] =
      { asks := [{ price := .inf, amount := 0, total := 10,
                   Account := "rZ", Sequence := 9 }], bids := [] } := by
  rw [parseOrderBook_single_ask (by decide) (by decide)]
  simp [askEntry, RawAmount.value, jsDiv, JsNum.fixed6]

/-- C5 (amended): an ask-oriented offer whose base-side quantity (the divisor
of the price computation) is zero is NOT excluded from the book: it is pushed
on the asks side with price `Infinity` (when the quote-side value is positive),
so the returned book can carry non-finite prices. -/
theorem C5_zero_divisor_propagates (offers : List RawOffer) (o : RawOffer)
    (ho : o ∈ offers) (hask : isAskOffer o = true)
    (hzero : o.TakerPays.value = 0) (hpos : 0 < o.TakerGets.value) :
    ({ price := .inf, amount := 0, total := o.TakerGets.value,
       Account := o.Account, Sequence := o.Sequence } : BookEntry)
      ∈ (parseOrderBook offers).asks := by
  have h := askEntry_mem_parseOrderBook ho hask
  have hprice : (jsDiv o.TakerGets.value 0).fixed6 = .inf := by
    simp [jsDiv, hpos, ne_of_gt hpos, JsNum.fixed6]
  simp only [askEntry, hzero, hprice] at h
  exact h

/-- C5 witness: the amended statement applied at the concrete zero-quantity
offer `{takerGets: 10 CCC, takerPays: 0 DDD}`. -/
theorem C5_witness :
    ({ price := .inf, amount := 0, total := 10,
       Account := "rZ", Sequence := 9 } : BookEntry)
      ∈ (parseOrderBook [{ TakerGets := .iou "CCC" 10, TakerPays := .iou "DDD" 0,
                           Account := "rZ", Sequence := 9 }]).asks :=
  C5_zero_divisor_propagates
    [{ TakerGets := .iou "CCC" 10, TakerPays := .iou "DDD" 0,
       Account := "rZ", Sequence := 9 }]
    { TakerGets := .iou "CCC" 10, TakerPays := .iou "DDD" 0,
      Account := "rZ", Sequence := 9 }
    (List.mem_singleton.mpr rfl) rfl rfl (by norm_num [RawAmount.value])

/-! ## Order placement

Translated from `handlePlaceOrder` in the `PermissionedDEX` component
(lines 186-228): for the fixed pair `DDD/CCC` (base `DDD`, quote `CCC`), a
sell order gives `takerGets = {CCC, amount * price}` and
`takerPays = {DDD, amount}`; a buy order gives `takerGets = {DDD, amount}` and
`takerPays = {CCC, amount * price}`.  The product is formatted with
`.toFixed(6)`; the raw `amount` string is passed through unchanged.  Both
amounts carry `issuer: user2Address`. -/

/-- Which tab is active: `orderType === 'buy' | 'sell'`. -/
inductive OrderSide where
  | buy
  | sell
deriving DecidableEq, Repr

/-- An issued-token amount `{currency, issuer, value}` with the numeric string
idealised as the rational it parses to. -/
structure IouAmountQ where
  currency : String
  issuer : String
  value : ℚ
deriving DecidableEq, Repr

/-- The `OfferCreate` payload assembled by `handlePlaceOrder`. -/
structure PlaceOrderTx where
  Account : String
  TakerGets : IouAmountQ
  TakerPays : IouAmountQ
  DomainID : String
deriving DecidableEq, Repr

/-- The payload construction of `handlePlaceOrder` (the pure part, before
autofill/sign/submit). -/
def handlePlaceOrder (orderType : OrderSide) (amount price : ℚ)
    (user2Address walletAddress domainId : String) : PlaceOrderTx :=
  match orderType with
  | .sell =>
    { Account := walletAddress
      TakerGets := { currency := "CCC", issuer := user2Address,
                     value := toFixed6 (amount * price) }
      TakerPays := { currency := "DDD", issuer := user2Address, value := amount }
      DomainID := domainId }
  | .buy =>
    { Account := walletAddress
      TakerGets := { currency := "DDD", issuer := user2Address, value := amount }
      TakerPays := { currency := "CCC", issuer := user2Address,
                     value := toFixed6 (amount * price) }
      DomainID := domainId }

/-! ### Claim C8 -/

/-- C8 counterexample: for a buy of quantity `0.0001` at unit price `0.0001`
the code formats `amount * price` with `toFixed(6)`, so the built `takerPays`
value is `0`, not the exact product `0.00000001` the claim states. -/
theorem C8_counterexample :
    (handlePlaceOrder .buy (1 / 10000) (1 / 10000) "rU" "rW" "D0").TakerPays.value = 0
    ∧ (1 / 10000 : ℚ) * (1 / 10000) ≠ 0 := by
  constructor
  · show toFixed6 (1 / 10000 * (1 / 10000)) = 0
    unfold toFixed6
    have h : Int.floor ((1 / 10000 : ℚ) * (1 / 10000) * 1000000 + 1 / 2) = 0 := by
      rw [Int.floor_eq_iff]
      norm_num
    rw [h]
    norm_num
  · norm_num

/-- C8 (amended): a buy builds `takerGets = quantity` of base `DDD` (exact)
and `takerPays = quantity * unitPrice` of quote `CCC` rounded to six decimal
places (`toFixed(6)`); a sell swaps the two; and the concrete buy of quantity
100 at unit price 2 yields exactly `takerGets = {DDD, 100}`,
`takerPays = {CCC, 200}`. -/
theorem C8_place_order_sides (amount price : ℚ) (u w d : String) :
    (handlePlaceOrder .buy amount price u w d).TakerGets =
      { currency := "DDD", issuer := u, value := amount }
    ∧ (handlePlaceOrder .buy amount price u w d).TakerPays =
      { currency := "CCC", issuer := u, value := toFixed6 (amount * price) }
    ∧ (handlePlaceOrder .sell amount price u w d).TakerGets =
      { currency := "CCC", issuer := u, value := toFixed6 (amount * price) }
    ∧ (handlePlaceOrder .sell amount price u w d).TakerPays =
      { currency := "DDD", issuer := u, value := amount }
    ∧ (handlePlaceOrder .buy 100 2 u w d).TakerGets =
      { currency := "DDD", issuer := u, value := 100 }
    ∧ (handlePlaceOrder .buy 100 2 u w d).TakerPays =
      { currency := "CCC", issuer := u, value := 200 } := by
  refine ⟨rfl, rfl, rfl, rfl, rfl, ?_⟩
  show ({ currency := "CCC", issuer := u, value := toFixed6 (100 * 2) } : IouAmountQ) = _
  have h : toFixed6 ((100 : ℚ) * 2) = 200 := by
    have := toFixed6_ofNat 200
    push_cast at this
    rw [show ((100 : ℚ) * 2) = 200 by norm_num, this]
  rw [h]

/-! ## Issuer account-flag builder

Translated from `setAccountFlags` in `src/services/iou-creator.ts`
(lines 51-123).  The builder distinguishes combinable transaction flags
(`tfRequireAuth`, OR-ed into one `Flags` bitmask payload, emitted only when
the mask is non-zero) from one-per-transaction `SetFlag` payloads
(`asfDefaultRipple`, always; `asfGlobalFreeze` when freeze is requested;
`asfAllowTrustLineClawback` when clawback is requested). -/

/-- `AccountSetTfFlags.tfRequireAuth`. -/
def tfRequireAuth : Nat := 0x00040000

/-- `AccountSetAsfFlags.asfDefaultRipple`. -/
def asfDefaultRipple : Nat := 8

/-- `AccountSetAsfFlags.asfGlobalFreeze`. -/
def asfGlobalFreeze : Nat := 7

/-- `AccountSetAsfFlags.asfAllowTrustLineClawback`. -/
def asfAllowTrustLineClawback : Nat := 16

/-- The flag-selection input of `setAccountFlags`. -/
structure IssuerFlags where
  requireAuth : Bool
  freeze : Bool
  clawback : Bool
deriving DecidableEq, Repr

/-- An `AccountSet` payload: either a combinable bitmask in the `Flags` field
or a single named flag in the `SetFlag` field. -/
inductive AccountSetPayload where
  | bitmask (Flags : Nat)
  | named (SetFlag : Nat)
deriving DecidableEq, Repr

/-- `setAccountFlags`: build the `tfFlags` mask, collect the `SetFlag` list
(rippling always first, then freeze, then clawback), emit the bitmask payload
when the mask is non-zero followed by one payload per named flag. -/
def setAccountFlags (flags : IssuerFlags) : List AccountSetPayload :=
  let tfFlagsMask := if flags.requireAuth then tfRequireAuth else 0
  let setFlags :=
    [asfDefaultRipple]
      ++ (if flags.freeze then [asfGlobalFreeze] else [])
      ++ (if flags.clawback then [asfAllowTrustLineClawback] else [])
  (if tfFlagsMask > 0 then [.bitmask tfFlagsMask] else [])
    ++ setFlags.map .named

/-! ### Claim C6 -/

/-- C6: `{requireAuth: true, freeze: true, clawback: false}` emits exactly the
three payloads bitmask(`tfRequireAuth`), named(`asfDefaultRipple`),
named(`asfGlobalFreeze`); the enable-rippling named payload is emitted for
every input; and any bitmask payload ever emitted carries exactly the
require-auth bit, so the freeze flag never rides in the bitmask payload. -/
theorem C6_setAccountFlags :
    setAccountFlags { requireAuth := true, freeze := true, clawback := false } =
      [.bitmask tfRequireAuth, .named asfDefaultRipple, .named asfGlobalFreeze]
    ∧ (∀ flags : IssuerFlags,
        AccountSetPayload.named asfDefaultRipple ∈ setAccountFlags flags)
    ∧ (∀ (flags : IssuerFlags) (n : Nat),
        AccountSetPayload.bitmask n ∈ setAccountFlags flags → n = tfRequireAuth) := by
  refine ⟨by decide, ?_, ?_⟩
  · rintro ⟨ra, fr, cl⟩
    cases ra <;> cases fr <;> cases cl <;> decide
  · rintro ⟨ra, fr, cl⟩ n hn
    cases ra <;> cases fr <;> cases cl <;>
      simp_all [setAccountFlags, tfRequireAuth, asfDefaultRipple, asfGlobalFreeze,
        asfAllowTrustLineClawback]

/-- C6 witness: the bitmask-characterisation part applied at the concrete
input `{requireAuth: true, freeze: true, clawback: false}` and the concrete
bitmask payload it emits. -/
theorem C6_witness :
    AccountSetPayload.named asfDefaultRipple ∈
      setAccountFlags { requireAuth := true, freeze := true, clawback := false }
    ∧ (0x00040000 : Nat) = tfRequireAuth :=
  ⟨C6_setAccountFlags.2.1 { requireAuth := true, freeze := true, clawback := false },
   C6_setAccountFlags.2.2 { requireAuth := true, freeze := true, clawback := false }
     0x00040000 (by decide)⟩

/-! ## DEX order builder

Translated from `createDEXOrder` in `src/services/permissioned-dex.ts`
(lines 48-146).  Validation: a non-`XRP` currency whose `issuer` is falsy
(missing or empty) yields a failure result; a hybrid offer with a falsy
`DomainID` yields a failure result.  Amount construction: `XRP` becomes a bare
scalar string, anything else a `{currency, issuer, value}` object.  The
network autofill step is out of scope; the payload it receives is the one
modelled here. -/

/-- An input amount `{currency, issuer?, value}`; `issuer` is `none` when the
field is absent. -/
structure AmountInput where
  currency : String
  issuer : Option String
  value : String
deriving DecidableEq, Repr

/-- JavaScript truthiness test `!issuer` on an optional string: falsy when
absent or empty. -/
def strOptFalsy : Option String → Bool
  | none => true
  | some s => s == ""

/-- A built ledger `Amount`: native XRP as a bare scalar string, an issued
token as a structured object. -/
inductive BuiltAmount where
  | scalar (value : String)
  | token (currency issuer value : String)
deriving DecidableEq, Repr

/-- `takerGets.currency === 'XRP' ? takerGets.value : {currency, issuer, value}`. -/
def buildAmount (a : AmountInput) : BuiltAmount :=
  if a.currency == "XRP" then .scalar a.value
  else .token a.currency (a.issuer.getD "") a.value

/-- The `OfferCreate` payload assembled by `createDEXOrder`; `Flags` is `none`
unless the hybrid flag is requested. -/
structure DexOfferCreate where
  Account : String
  TakerGets : BuiltAmount
  TakerPays : BuiltAmount
  DomainID : String
  Flags : Option Nat
deriving DecidableEq, Repr

/-- The result shape `{success, transaction?, error?}`: a success carries the
payload and no error, a failure carries an error message and no payload. -/
inductive DexOrderResult where
  | ok (tx : DexOfferCreate)
  | err (msg : String)
deriving DecidableEq, Repr

/-- `createDEXOrder` (the pure part, before autofill): issuer validation for
both sides, amount construction, then the hybrid `DomainID` check and flag. -/
def createDEXOrder (accountAddress domainId : String)
    (takerGets takerPays : AmountInput) (isHybrid : Bool) : DexOrderResult :=
  if takerGets.currency != "XRP" && strOptFalsy takerGets.issuer then
    .err ("TakerGets currency " ++ takerGets.currency ++ " requires an issuer")
  else if takerPays.currency != "XRP" && strOptFalsy takerPays.issuer then
    .err ("TakerPays currency " ++ takerPays.currency ++ " requires an issuer")
  else if isHybrid && domainId == "" then
    .err "Hybrid offers require a DomainID"
  else
    .ok { Account := accountAddress
          TakerGets := buildAmount takerGets
          TakerPays := buildAmount takerPays
          DomainID := domainId
          Flags := if isHybrid then some 0x00100000 else none }

/-! ### Claim C9 -/

/-- C9: a non-XRP currency with a missing issuer on either side makes the
builder return a failure result (an error message, no transaction payload by
the shape of `DexOrderResult`); and in every successfully emitted payload a
structured token amount carries a non-empty issuer while an `XRP` side is
emitted as a bare scalar string. -/
theorem C9_createDEXOrder_issuer_validation :
    (∀ (acct dom : String) (gets pays : AmountInput) (hyb : Bool),
      ((gets.currency ≠ "XRP" ∧ gets.issuer = none) ∨
       (pays.currency ≠ "XRP" ∧ pays.issuer = none)) →
      ∃ msg, createDEXOrder acct dom gets pays hyb = .err msg)
    ∧ (∀ (acct dom : String) (gets pays : AmountInput) (hyb : Bool)
        (tx : DexOfferCreate),
        createDEXOrder acct dom gets pays hyb = .ok tx →
        (∀ c i v, tx.TakerGets = .token c i v → i ≠ "")
        ∧ (∀ c i v, tx.TakerPays = .token c i v → i ≠ "")
        ∧ (gets.currency = "XRP" → tx.TakerGets = .scalar gets.value)
        ∧ (pays.currency = "XRP" → tx.TakerPays = .scalar pays.value)) := by
  constructor
  · intro acct dom gets pays hyb h
    unfold createDEXOrder
    rcases h with ⟨hc, hi⟩ | ⟨hc, hi⟩
    · have hcond : (gets.currency != "XRP" && strOptFalsy gets.issuer) = true := by
        simp [hi, strOptFalsy, hc]
      rw [if_pos hcond]
      exact ⟨_, rfl⟩
    · by_cases hfst : (gets.currency != "XRP" && strOptFalsy gets.issuer) = true
      · rw [if_pos hfst]
        exact ⟨_, rfl⟩
      · have hcond : (pays.currency != "XRP" && strOptFalsy pays.issuer) = true := by
          simp [hi, strOptFalsy, hc]
        rw [if_neg hfst, if_pos hcond]
        exact ⟨_, rfl⟩
  · intro acct dom gets pays hyb tx hok
    unfold createDEXOrder at hok
    by_cases h1 : (gets.currency != "XRP" && strOptFalsy gets.issuer) = true
    · rw [if_pos h1] at hok
      cases hok
    · rw [if_neg h1] at hok
      by_cases h2 : (pays.currency != "XRP" && strOptFalsy pays.issuer) = true
      · rw [if_pos h2] at hok
        cases hok
      · rw [if_neg h2] at hok
        by_cases h3 : (hyb && dom == "") = true
        · rw [if_pos h3] at hok
          cases hok
        · rw [if_neg h3] at hok
          cases hok
          have hgets : ∀ c i v, buildAmount gets = .token c i v → i ≠ "" := by
            intro c i v htok
            unfold buildAmount at htok
            by_cases hx : (gets.currency == "XRP") = true
            · rw [if_pos hx] at htok
              cases htok
            · rw [if_neg hx] at htok
              have hfalsy : strOptFalsy gets.issuer = false := by
                cases hfs : strOptFalsy gets.issuer
                · rfl
                · refine absurd ?_ h1
                  simp [hfs]
                  simpa using hx
              cases hiss : gets.issuer with
              | none => simp [hiss, strOptFalsy] at hfalsy
              | some s =>
                rw [hiss, strOptFalsy] at hfalsy
                cases htok
                simpa [hiss] using beq_eq_false_iff_ne.mp hfalsy
          have hpays : ∀ c i v, buildAmount pays = .token c i v → i ≠ "" := by
            intro c i v htok
            unfold buildAmount at htok
            by_cases hx : (pays.currency == "XRP") = true
            · rw [if_pos hx] at htok
              cases htok
            · rw [if_neg hx] at htok
              have hfalsy : strOptFalsy pays.issuer = false := by
                cases hfs : strOptFalsy pays.issuer
                · rfl
                · refine absurd ?_ h2
                  simp [hfs]
                  simpa using hx
              cases hiss : pays.issuer with
              | none => simp [hiss, strOptFalsy] at hfalsy
              | some s =>
                rw [hiss, strOptFalsy] at hfalsy
                cases htok
                simpa [hiss] using beq_eq_false_iff_ne.mp hfalsy
          refine ⟨hgets, hpays, ?_, ?_⟩
          · intro hx
            simp [buildAmount, hx]
          · intro hx
            simp [buildAmount, hx]

/-- C9 witness: the validation part applied at a token side without issuer,
and the native-scalar part applied at a successful XRP-for-token order. -/
theorem C9_witness :
    (∃ msg, createDEXOrder "rAcct" "D0"
        { currency := "USD", issuer := none, value := "5" }
        { currency := "XRP", issuer := none, value := "10" } false = .err msg)
    ∧ ({ Account := "rAcct", TakerGets := .scalar "10",
         TakerPays := .token "USD" "rIss" "5", DomainID := "D0",
         Flags := none } : DexOfferCreate).TakerGets = .scalar "10" := by
  constructor
  · exact C9_createDEXOrder_issuer_validation.1 "rAcct" "D0"
      { currency := "USD", issuer := none, value := "5" }
      { currency := "XRP", issuer := none, value := "10" } false
      (Or.inl ⟨by decide, rfl⟩)
  · exact (C9_createDEXOrder_issuer_validation.2 "rAcct" "D0"
      { currency := "XRP", issuer := none, value := "10" }
      { currency := "USD", issuer := some "rIss", value := "5" } false
      { Account := "rAcct", TakerGets := .scalar "10",
        TakerPays := .token "USD" "rIss" "5", DomainID := "D0",
        Flags := none } (by decide)).2.2.1 rfl

/-! ## Verification Session Controller

Translated from the PermiX verifier client (`pollVerification`,
`renderResult`) and the terminal handling in `VerificationFlow.tsx`
(lines 85-98).

`pollVerification(id, {intervalMs = 2000, maxTimeMs = 5*60*1000})` performs an
initial status read, then while the state is `PENDING` it checks
`Date.now() - start > maxTimeMs` (throwing `Polling timeout exceeded.` when it
holds), sleeps one interval, and reads again.  Reads are idealised as
instantaneous, so the elapsed time at the k-th read is `k * intervalMs`; the
gateway is a function from poll index to reported state, and a fuel parameter
bounds the recursion (any fuel larger than `maxTimeMs / intervalMs` is enough,
as proved below).

`VerificationFlow` consumes the polling result: on state `SUCCESS` it marks
every requested attribute verified and moves to the `complete` step; on any
other terminal state (and on the timeout error) it returns to `scan`.  The
returned claims are never compared against the requested policy; the only
place a claim value is inspected is the display helper `renderResult`, which
shows a check or cross for `age_over_18`. -/

/-- The outcome of the polling loop: a non-`PENDING` gateway state returned
after `pollCount` polls, the `Polling timeout exceeded.` error thrown at
`elapsedMs`, or fuel exhaustion (never reached with enough fuel). -/
inductive PollOutcome where
  | finished (state : String) (pollCount : Nat)
  | timeoutErr (elapsedMs : Nat)
  | outOfFuel
deriving DecidableEq, Repr

/-- The `while (data.state === 'PENDING')` loop of `pollVerification`: at the
k-th read (elapsed `k * intervalMs`) a non-pending state returns, otherwise
the elapsed-time ceiling check may throw, otherwise sleep and read again. -/
def pollLoop (statuses : Nat → String) (intervalMs maxTimeMs : Nat) :
    Nat → Nat → PollOutcome
  | k, 0 =>
    if statuses k == "PENDING" then
      if maxTimeMs < k * intervalMs then .timeoutErr (k * intervalMs)
      else .outOfFuel
    else .finished (statuses k) k
  | k, fuel + 1 =>
    if statuses k == "PENDING" then
      if maxTimeMs < k * intervalMs then .timeoutErr (k * intervalMs)
      else pollLoop statuses intervalMs maxTimeMs (k + 1) fuel
    else .finished (statuses k) k

/-- `pollVerification`: the loop started from the initial read. -/
def pollVerification (statuses : Nat → String) (intervalMs maxTimeMs fuel : Nat) :
    PollOutcome :=
  pollLoop statuses intervalMs maxTimeMs 0 fuel

/-- A claim value returned by the wallet: a JSON string or boolean. -/
inductive ClaimValue where
  | str (s : String)
  | boolVal (b : Bool)
deriving DecidableEq, Repr

/-- The verification object consumed by the flow: `{state, wallet_response:
{credential_subject_data}}`, the claims map as an association list. -/
structure VerificationData where
  state : String
  credential_subject_data : Option (List (String × ClaimValue))
deriving DecidableEq, Repr

/-- The UI steps of `VerificationFlow`; `complete` is its success terminal. -/
inductive FlowStep where
  | request
  | scan
  | verify
  | complete
deriving DecidableEq, Repr

/-- The terminal-state handling of `VerificationFlow` (lines 91-98): `SUCCESS`
goes to `complete`, every other polling result returns to `scan`. -/
def finalStep (final : VerificationData) : FlowStep :=
  if final.state == "SUCCESS" then .complete else .scan

/-- The attribute-status update of `VerificationFlow`: on `SUCCESS` every
requested attribute is marked verified (regardless of the returned claims);
otherwise the statuses are left untouched. -/
def attrStatusesAfter (final : VerificationData) (prev : List (String × Bool)) :
    List (String × Bool) :=
  if final.state == "SUCCESS" then prev.map (fun p => (p.1, true)) else prev

/-- Field lookup on the claims map. -/
def csdLookup (csd : List (String × ClaimValue)) (k : String) : Option ClaimValue :=
  (csd.find? fun p => p.1 == k).map Prod.snd

/-- The `age_over_18` display test of `renderResult` (line 441):
`csd.age_over_18 === 'true' || csd.age_over_18 === true`. -/
def over18Check (csd : List (String × ClaimValue)) : Bool :=
  csdLookup csd "age_over_18" == some (.str "true") ||
  csdLookup csd "age_over_18" == some (.boolVal true)

/-! ### Claim C1 -/

/-- C1 counterexample: the gateway reports `SUCCESS` with returned claims
`{age_over_18: "false"}` (failing the requested `{ageOver18: true}` policy),
yet the flow's terminal step is `complete` — the success terminal, with every
requested attribute marked verified — not a failure state; only the display
helper notices the failing value.  Local re-verification does not exist. -/
theorem C1_counterexample :
    finalStep { state := "SUCCESS",
                credential_subject_data := some [("age_over_18", .str "false")] }
      = .complete
    ∧ attrStatusesAfter
        { state := "SUCCESS",
          credential_subject_data := some [("age_over_18", .str "false")] }
        [("Age", false), ("Country", false), ("KYC Level", false)]
      = [("Age", true), ("Country", true), ("KYC Level", true)]
    ∧ over18Check [("age_over_18", .str "false")] = false := by
  refine ⟨rfl, rfl, ?_⟩
  decide

/-- C1 (amended): whenever the gateway reports terminal `SUCCESS` the flow
reaches the `complete` (succeeded) step and marks every requested attribute
verified, regardless of the returned claims — there is no local
re-verification and no downgrade to a failed state; a non-`SUCCESS` terminal
returns the flow to `scan`; the returned claims influence only the
`renderResult` display, which shows a cross for a non-true-ish
`age_over_18`. -/
theorem C1_gateway_success_is_terminal :
    (∀ csd, finalStep { state := "SUCCESS", credential_subject_data := csd }
      = .complete)
    ∧ (∀ csd prev,
        attrStatusesAfter { state := "SUCCESS", credential_subject_data := csd } prev
          = prev.map fun p => (p.1, true))
    ∧ (∀ csd, finalStep { state := "FAILED", credential_subject_data := csd }
        = .scan)
    ∧ over18Check [("age_over_18", .str "false")] = false := by
  refine ⟨fun csd => rfl, fun csd prev => rfl, fun csd => rfl, by decide⟩

/-! ### Claim C7 -/

/-- C7 counterexample: with the configured interval 2000 ms and ceiling
300000 ms (the values passed by `VerificationFlow`) and a gateway that never
leaves `PENDING`, the loop throws its timeout at elapsed 302000 ms — one full
interval after the ceiling, not at the ceiling — and the 152nd poll has
already happened past the ceiling. -/
theorem C7_counterexample :
    pollVerification (fun _ => "PENDING") 2000 300000 200 = .timeoutErr 302000
    ∧ (302000 : Nat) ≠ 300000 := by
  constructor
  · decide
  · decide

/-- Helper: with an always-pending gateway the loop, started at poll index
`k ≤ maxTimeMs / intervalMs + 1` with enough fuel, throws the timeout at the
first poll index whose elapsed time strictly exceeds the ceiling. -/
theorem pollLoop_allPending_timeout (statuses : Nat → String)
    (hp : ∀ k, statuses k = "PENDING") (intervalMs maxTimeMs : Nat)
    (hi : 0 < intervalMs) :
    ∀ fuel k, k ≤ maxTimeMs / intervalMs + 1 →
      maxTimeMs / intervalMs + 1 - k ≤ fuel →
      pollLoop statuses intervalMs maxTimeMs k fuel =
        .timeoutErr ((maxTimeMs / intervalMs + 1) * intervalMs) := by
  intro fuel
  induction fuel with
  | zero =>
    intro k hk hfuel
    have hk0 : k = maxTimeMs / intervalMs + 1 := le_antisymm hk (by omega)
    subst hk0
    have hover : maxTimeMs < (maxTimeMs / intervalMs + 1) * intervalMs :=
      (Nat.div_lt_iff_lt_mul hi).mp (Nat.lt_succ_self _)
    simp [pollLoop, hp, hover]
  | succ f ih =>
    intro k hk hfuel
    by_cases hk0 : k = maxTimeMs / intervalMs + 1
    · subst hk0
      have hover : maxTimeMs < (maxTimeMs / intervalMs + 1) * intervalMs :=
        (Nat.div_lt_iff_lt_mul hi).mp (Nat.lt_succ_self _)
      simp [pollLoop, hp, hover]
    · have hklt : k ≤ maxTimeMs / intervalMs := by omega
      have hunder : ¬ maxTimeMs < k * intervalMs := by
        have := (Nat.le_div_iff_mul_le hi).mp hklt
        omega
      have hrec := ih (k + 1) (by omega) (by omega)
      simp [pollLoop, hp, hunder, hrec]

/-- C7 (amended): a session whose gateway never reports a terminal status does
not poll forever — it throws the polling-timeout error — but not at exactly
the configured ceiling: the error fires at the first poll boundary strictly
after the ceiling, at elapsed time `(maxTimeMs / intervalMs + 1) * intervalMs`,
which lies in the half-open window `(maxTimeMs, maxTimeMs + intervalMs]`. -/
theorem C7_timeout_after_ceiling (statuses : Nat → String)
    (hp : ∀ k, statuses k = "PENDING") (intervalMs maxTimeMs fuel : Nat)
    (hi : 0 < intervalMs) (hfuel : maxTimeMs / intervalMs < fuel) :
    pollVerification statuses intervalMs maxTimeMs fuel =
      .timeoutErr ((maxTimeMs / intervalMs + 1) * intervalMs)
    ∧ maxTimeMs < (maxTimeMs / intervalMs + 1) * intervalMs
    ∧ (maxTimeMs / intervalMs + 1) * intervalMs ≤ maxTimeMs + intervalMs := by
  refine ⟨?_, ?_, ?_⟩
  · exact pollLoop_allPending_timeout statuses hp intervalMs maxTimeMs hi fuel 0
      (Nat.zero_le _) (by simpa using Nat.succ_le_of_lt hfuel)
  · exact (Nat.div_lt_iff_lt_mul hi).mp (Nat.lt_succ_self _)
  · have h := Nat.div_mul_le_self maxTimeMs intervalMs
    calc (maxTimeMs / intervalMs + 1) * intervalMs
        = maxTimeMs / intervalMs * intervalMs + intervalMs := by ring
      _ ≤ maxTimeMs + intervalMs := by omega

/-- C7 witness: the amended statement applied at the configured values
interval 2000 ms, ceiling 300000 ms, fuel 200, with an always-pending
gateway. -/
theorem C7_witness :
    pollVerification (fun _ => "PENDING") 2000 300000 200 =
      .timeoutErr ((300000 / 2000 + 1) * 2000)
    ∧ (300000 : Nat) < (300000 / 2000 + 1) * 2000 :=
  have h := C7_timeout_after_ceiling (fun _ => "PENDING") (fun _ => rfl)
    2000 300000 200 (by decide) (by decide)
  ⟨h.1, h.2.1⟩
